import Mathlib

/-!
Verification of the ISL (Indian Sign Language) gloss translation backend.

The program under study is a small Flask backend (`backend/app.py`) whose core
is the function `translate_to_isl_gloss`: it turns a parsed English sentence
(a spaCy `Doc`, i.e. a sequence of tokens carrying surface text, lemma,
part-of-speech tag, dependency label, stop-word flag and punctuation flag)
into an ordered list of uppercase gloss tokens, handling the dependency label
for the negating word and a fixed synonym table.  Around it sits one HTTP
endpoint, `/transcribe`, which saves the uploaded audio to a temporary file,
transcribes it with a Whisper model, runs the gloss translation and answers
with JSON.

This file gives a shallow embedding of that code.  Python strings are Lean
`String`s; `str.upper()` and `str.lower()` are embedded character-wise over
the underlying character list (the program only ever handles ASCII sign
glosses); the spaCy pipeline and the Whisper model are external services and
appear as parameters (`Option` encodes the "model failed to load at startup"
state that the code tests with `if not nlp` / `if not whisper_model`).
The `/transcribe` handler is embedded as a function from a request and a
file-system state (does the temporary recording file exist?) to a response
and the resulting file-system state; a Python exception raised by the
transcription call is encoded with `Except`.
-/

/-- One token of a spaCy-parsed sentence, with exactly the attributes the
program reads: `text` (surface form), `lemma_` (base form), `pos_`
(part-of-speech tag), `dep_` (dependency label), `is_stop`, `is_punct`. -/
structure SpacyToken where
  text : String
  lemma_ : String
  pos_ : String
  dep_ : String
  is_stop : Bool
  is_punct : Bool
deriving DecidableEq

/-- Embedding of Python `str.upper()`: uppercase every character. -/
def strUpper (s : String) : String := ⟨s.data.map Char.toUpper⟩

/-- Embedding of Python `str.lower()`: lowercase every character. -/
def strLower (s : String) : String := ⟨s.data.map Char.toLower⟩

/-- Embedding of Python `str.strip()`: drop leading and trailing whitespace
characters. -/
def strStrip (s : String) : String :=
  ⟨(((s.data.dropWhile Char.isWhitespace).reverse.dropWhile
      Char.isWhitespace).reverse)⟩

/-- The dictionary `isl_synonym_map` from `translate_to_isl_gloss`:
`{"FOOD": "EAT", "HOME": "HOUSE", "MINE": "MY", "MYSELF": "I",
"HEY": "HELLO", "HI": "HELLO"}`, as a finite lookup. -/
def isl_synonym_map (word : String) : Option String :=
  if word = "FOOD" then some "EAT"
  else if word = "HOME" then some "HOUSE"
  else if word = "MINE" then some "MY"
  else if word = "MYSELF" then some "I"
  else if word = "HEY" then some "HELLO"
  else if word = "HI" then some "HELLO"
  else none

/-- Python `isl_synonym_map.get(word, word)`: look the word up, defaulting to
the word itself. -/
def synonymGet (word : String) : String := (isl_synonym_map word).getD word

/-- The list `important_pos` from the source:
`["NOUN", "PROPN", "VERB", "ADJ", "INTJ", "PRON", "ADV"]`. -/
def important_pos : List String :=
  ["NOUN", "PROPN", "VERB", "ADJ", "INTJ", "PRON", "ADV"]

/-- One iteration of the `for token in doc` loop of `translate_to_isl_gloss`,
acting on the accumulated `gloss` list:
if `token.dep_ == "neg"` append `"NOT"` and continue; else if `token.pos_ in
important_pos` and `token.lemma_ != "be"`: append `"NOT"` when
`token.text == "dont"`, otherwise append `token.lemma_.upper()`. -/
def glossStep (gloss : List String) (token : SpacyToken) : List String :=
  if token.dep_ = "neg" then gloss ++ ["NOT"]
  else if important_pos.contains token.pos_ then
    if token.lemma_ ≠ "be" then
      if token.text = "dont" then gloss ++ ["NOT"]
      else gloss ++ [strUpper token.lemma_]
    else gloss
  else gloss

/-- The full loop of `translate_to_isl_gloss`: fold `glossStep` over the doc
starting from the empty list.  This is the pre-normalization ("raw") gloss. -/
def raw_gloss (doc : List SpacyToken) : List String := doc.foldl glossStep []

/-- The contribution of a single token to the raw gloss (the list of strings
one loop iteration appends).  Used to state per-token properties of the
loop. -/
def tokenGloss (token : SpacyToken) : List String :=
  if token.dep_ = "neg" then ["NOT"]
  else if important_pos.contains token.pos_ then
    if token.lemma_ ≠ "be" then
      if token.text = "dont" then ["NOT"]
      else [strUpper token.lemma_]
    else []
  else []

/-- The fallback of `translate_to_isl_gloss`:
`[word.text.upper() for word in doc if not word.is_punct]`. -/
def surfaceFallback (doc : List SpacyToken) : List String :=
  (doc.filter (fun word => !word.is_punct)).map (fun word => strUpper word.text)

/-- The synonym pass of `translate_to_isl_gloss`:
`[isl_synonym_map.get(word, word) for word in gloss]`. -/
def synonymNormalize (gloss : List String) : List String :=
  gloss.map (fun word => synonymGet word)

/-- `translate_to_isl_gloss` from the point where the spaCy doc is available:
run the loop; if the gloss list is empty return the surface fallback
(without any synonym pass — the code returns there directly); otherwise
return the gloss with the synonym map applied. -/
def translate_core (doc : List SpacyToken) : List String :=
  let gloss := raw_gloss doc
  if gloss = [] then surfaceFallback doc
  else synonymNormalize gloss

/-- The whole `translate_to_isl_gloss(text)`, with the spaCy pipeline as an
explicit parameter: `None` models the startup failure state, in which the
function returns `["Error: spaCy model not loaded."]`; otherwise the doc is
obtained by running the pipeline on `text.strip().lower()`. -/
def translate_to_isl_gloss (nlp : Option (String → List SpacyToken))
    (text : String) : List String :=
  match nlp with
  | none => ["Error: spaCy model not loaded."]
  | some nlpFn => translate_core (nlpFn (strLower (strStrip text)))

/-- The `/transcribe` request as the handler reads it: whether the multipart
field `audio_data` is present, the uploaded file's name, and the outcome of
the Whisper `transcribe` call on the saved file — `Except.error e` models a
raised exception (caught by the handler's `except` block), `Except.ok raw`
the concatenated segment text before `.strip()`. -/
structure AudioRequest where
  has_audio_data : Bool
  filename : String
  transcribe_result : Except String String

/-- The per-request file-system state the handler manipulates: whether the
temporary recording file `temp_audio/temp_recording.webm` exists. -/
structure TempState where
  tempExists : Bool
deriving DecidableEq

/-- The JSON-plus-status answer of the handler. -/
structure HttpResponse where
  status : Nat
  transcribed_text : Option String
  gloss : List String
  error : Option String
deriving DecidableEq

/-- The `/transcribe` handler `transcribe_audio`.  Checks the multipart field
and the filename (400 on failure), saves the audio to the temporary path,
returns 500 if the Whisper model is not loaded, transcribes (a raised
exception yields the 500 answer of the `except` block), strips the text,
short-circuits with an empty gloss on empty text, otherwise translates,
deletes the temporary file and answers 200.  The returned `TempState` records
whether the temporary file exists when the handler returns. -/
def transcribe_audio (nlp : Option (String → List SpacyToken))
    (whisper_model : Bool) (req : AudioRequest) (st : TempState) :
    HttpResponse × TempState :=
  if !req.has_audio_data then
    (⟨400, none, [], some "No audio file part"⟩, st)
  else if req.filename = "" then
    (⟨400, none, [], some "No selected file"⟩, st)
  else
    let st1 : TempState := ⟨true⟩
    if !whisper_model then
      (⟨500, none, [], some "Whisper model not loaded"⟩, st1)
    else
      match req.transcribe_result with
      | .error e => (⟨500, none, [], some e⟩, st1)
      | .ok segText =>
        let transcribed_text := strStrip segText
        if transcribed_text = "" then
          (⟨200, some "", [], none⟩, st1)
        else
          let isl_gloss := translate_to_isl_gloss nlp transcribed_text
          (⟨200, some transcribed_text, isl_gloss, none⟩, ⟨false⟩)

/-! ### Helper lemmas about the loop and the string primitives -/

/-- One loop iteration appends exactly the token's contribution. -/
theorem glossStep_eq (gloss : List String) (token : SpacyToken) :
    glossStep gloss token = gloss ++ tokenGloss token := by
  unfold glossStep tokenGloss
  split_ifs <;> simp

/-- Folding the loop body from any accumulator appends the concatenated
per-token contributions. -/
theorem foldl_glossStep (doc : List SpacyToken) :
    ∀ acc : List String,
      doc.foldl glossStep acc = acc ++ doc.flatMap tokenGloss := by
  induction doc with
  | nil => intro acc; simp
  | cons t ts ih =>
    intro acc
    rw [List.foldl_cons, glossStep_eq, ih, List.flatMap_cons, List.append_assoc]

/-- The raw gloss is the concatenation of the per-token contributions. -/
theorem raw_gloss_eq_flatMap (doc : List SpacyToken) :
    raw_gloss doc = doc.flatMap tokenGloss := by
  unfold raw_gloss
  rw [foldl_glossStep doc []]
  rfl

/-- A token contributes at most one gloss string. -/
theorem tokenGloss_length (t : SpacyToken) : (tokenGloss t).length ≤ 1 := by
  unfold tokenGloss
  split_ifs <;> simp

/-- Every string a token contributes is the negating marker or the uppercased
lemma. -/
theorem mem_tokenGloss {w : String} {t : SpacyToken} (h : w ∈ tokenGloss t) :
    w = "NOT" ∨ w = strUpper t.lemma_ := by
  unfold tokenGloss at h
  split_ifs at h <;> simp_all

/-- `Char.ofNat` at a valid code point keeps the numeric value. -/
theorem toNat_ofNat_of_valid {n : Nat} (h : n.isValidChar) :
    (Char.ofNat n).toNat = n := by
  unfold Char.ofNat
  rw [dif_pos h]
  rfl

/-- `Char.toUpper` is idempotent. -/
theorem toUpper_toUpper (c : Char) : c.toUpper.toUpper = c.toUpper := by
  by_cases h : c.toNat ≥ 97 ∧ c.toNat ≤ 122
  · have h1 : c.toUpper = Char.ofNat (c.toNat - 32) := by
      simp only [Char.toUpper]
      rw [if_pos h]
    have hv : (c.toNat - 32).isValidChar := Or.inl (by omega)
    have h2 : (Char.ofNat (c.toNat - 32)).toNat = c.toNat - 32 :=
      toNat_ofNat_of_valid hv
    rw [h1]
    simp only [Char.toUpper]
    rw [h2, if_neg (by omega)]
  · have h1 : c.toUpper = c := by
      simp only [Char.toUpper]
      rw [if_neg h]
    rw [h1]
    exact h1

/-- Uppercasing a string is idempotent. -/
theorem strUpper_strUpper (s : String) : strUpper (strUpper s) = strUpper s := by
  show String.mk ((s.data.map Char.toUpper).map Char.toUpper) =
    String.mk (s.data.map Char.toUpper)
  rw [List.map_map,
    show Char.toUpper ∘ Char.toUpper = Char.toUpper from funext toUpper_toUpper]

/-- A synonym lookup either leaves the word unchanged or lands on one of the
five values of the table. -/
theorem synonymGet_cases (w : String) :
    synonymGet w = w ∨
      synonymGet w ∈ (["EAT", "HOUSE", "MY", "I", "HELLO"] : List String) := by
  unfold synonymGet isl_synonym_map
  split_ifs <;> simp

/-- No value of the synonym table is itself a key, so one lookup reaches a
fixed point. -/
theorem synonymGet_idem (w : String) :
    synonymGet (synonymGet w) = synonymGet w := by
  rcases synonymGet_cases w with h | h
  · rw [h]
    exact h
  · simp only [List.mem_cons, List.not_mem_nil, or_false] at h
    rcases h with h | h | h | h | h <;> rw [h] <;> decide

/-! ### The claims -/

/-- The annotated tokens of the sentence "i do not eat food" as the spaCy
pipeline tags them: pronoun "i", auxiliary "do", the negating particle "not"
with dependency label `neg`, the verb "eat", the noun "food". -/
def c1_doc : List SpacyToken :=
  [⟨"i", "I", "PRON", "nsubj", true, false⟩,
   ⟨"do", "do", "AUX", "aux", true, false⟩,
   ⟨"not", "not", "PART", "neg", true, false⟩,
   ⟨"eat", "eat", "VERB", "ROOT", false, false⟩,
   ⟨"food", "food", "NOUN", "dobj", false, false⟩]

/-- C1: on the annotated tokens of "I do not eat food", the raw
pre-normalization gloss is `["I", "NOT", "EAT", "FOOD"]`, and the mapper
followed by the synonym pass returns `["I", "NOT", "EAT", "EAT"]`. -/
theorem c1_example_sentence :
    raw_gloss c1_doc = ["I", "NOT", "EAT", "FOOD"] ∧
    translate_core c1_doc = ["I", "NOT", "EAT", "EAT"] := by
  decide

/-- C2: any token sequence containing a token with accepted part of speech
and lemma other than "be" yields a non-empty raw gloss and a non-empty final
gloss. -/
theorem c2_nonempty (doc : List SpacyToken)
    (h : ∃ t ∈ doc, important_pos.contains t.pos_ ∧ t.lemma_ ≠ "be") :
    raw_gloss doc ≠ [] ∧ translate_core doc ≠ [] := by
  obtain ⟨t, ht, hpos, hbe⟩ := h
  have htg : tokenGloss t ≠ [] := by
    unfold tokenGloss
    split_ifs <;> simp_all
  have hraw : raw_gloss doc ≠ [] := by
    rw [raw_gloss_eq_flatMap]
    intro hnil
    rw [List.flatMap_eq_nil_iff] at hnil
    exact htg (hnil t ht)
  refine ⟨hraw, ?_⟩
  simp only [translate_core]
  rw [if_neg hraw]
  simpa [synonymNormalize] using hraw

/-- C2 witness: a single accepted verb token. -/
theorem c2_nonempty_witness :
    raw_gloss [⟨"eat", "eat", "VERB", "ROOT", false, false⟩] ≠ [] ∧
    translate_core [⟨"eat", "eat", "VERB", "ROOT", false, false⟩] ≠ [] :=
  c2_nonempty [⟨"eat", "eat", "VERB", "ROOT", false, false⟩]
    ⟨⟨"eat", "eat", "VERB", "ROOT", false, false⟩, by decide, by decide, by decide⟩

/-- C3: the raw gloss is the in-order concatenation of per-token
contributions (so each token with dependency label `neg` contributes its own
entry at its own surface position); a token with dependency label `neg`
contributes exactly `["NOT"]` whatever its part of speech, lemma or stop-word
flag; and `"NOT"` is untouched by the synonym table. -/
theorem c3_negation (doc : List SpacyToken) :
    raw_gloss doc = doc.flatMap tokenGloss ∧
    (∀ t : SpacyToken, t.dep_ = "neg" → tokenGloss t = ["NOT"]) ∧
    synonymGet "NOT" = "NOT" := by
  refine ⟨raw_gloss_eq_flatMap doc, ?_, by decide⟩
  intro t ht
  unfold tokenGloss
  rw [if_pos ht]

/-- C3 witness: a stop-word adverb carrying the `neg` label contributes
`["NOT"]`, and a two-negation doc concatenates the contributions. -/
theorem c3_negation_witness :
    tokenGloss ⟨"not", "not", "ADV", "neg", true, false⟩ = ["NOT"] ∧
    raw_gloss [⟨"not", "not", "ADV", "neg", true, false⟩,
               ⟨"never", "never", "ADV", "neg", false, false⟩] =
      [⟨"not", "not", "ADV", "neg", true, false⟩,
       ⟨"never", "never", "ADV", "neg", false, false⟩].flatMap tokenGloss ∧
    synonymGet "NOT" = "NOT" :=
  ⟨(c3_negation []).2.1 ⟨"not", "not", "ADV", "neg", true, false⟩ rfl,
   (c3_negation [⟨"not", "not", "ADV", "neg", true, false⟩,
                 ⟨"never", "never", "ADV", "neg", false, false⟩]).1,
   (c3_negation []).2.2⟩

/-- C4: the synonym pass over the shipped table is idempotent: applying it
twice to any gloss sequence equals applying it once. -/
theorem c4_synonymNormalize_idempotent (gloss : List String) :
    synonymNormalize (synonymNormalize gloss) = synonymNormalize gloss := by
  unfold synonymNormalize
  rw [List.map_map]
  exact List.map_congr_left fun w _ => synonymGet_idem w

/-- C5: the mapper returns the empty sequence on an empty doc; for empty
input text (a pipeline that parses the empty string to an empty doc) the
whole translation returns the empty sequence with no fallback text; and a
doc made only of punctuation tokens (punctuation flag set, part-of-speech
tag `PUNCT`, dependency label `punct`) also yields the empty sequence. -/
theorem c5_empty_and_punct :
    translate_core [] = [] ∧
    (∀ nlpFn : String → List SpacyToken, nlpFn "" = [] →
      translate_to_isl_gloss (some nlpFn) "" = []) ∧
    (∀ doc : List SpacyToken,
      (∀ t ∈ doc, t.is_punct = true ∧ t.pos_ = "PUNCT" ∧ t.dep_ = "punct") →
      translate_core doc = []) := by
  refine ⟨by decide, ?_, ?_⟩
  · intro nlpFn h
    have hdef : translate_to_isl_gloss (some nlpFn) "" = translate_core (nlpFn "") := rfl
    rw [hdef, h]
    decide
  · intro doc hall
    have hraw : raw_gloss doc = [] := by
      rw [raw_gloss_eq_flatMap, List.flatMap_eq_nil_iff]
      intro t ht
      obtain ⟨hp, hpos, hdep⟩ := hall t ht
      unfold tokenGloss
      rw [hpos, hdep, if_neg (by decide), if_neg (by decide)]
    simp only [translate_core]
    rw [if_pos hraw]
    unfold surfaceFallback
    have hfil : doc.filter (fun w => !w.is_punct) = [] := by
      rw [List.filter_eq_nil_iff]
      intro t ht
      simp [(hall t ht).1]
    rw [hfil]
    rfl

/-- C5 witness: an empty-parsing pipeline on empty text, and a doc of one
period token. -/
theorem c5_empty_and_punct_witness :
    translate_to_isl_gloss (some (fun _ => [])) "" = [] ∧
    translate_core [⟨".", ".", "PUNCT", "punct", false, true⟩] = [] :=
  ⟨c5_empty_and_punct.2.1 (fun _ => []) rfl,
   c5_empty_and_punct.2.2 [⟨".", ".", "PUNCT", "punct", false, true⟩]
     (by decide)⟩

/-- C6 counterexample: on a doc whose single token "food" is a determiner
(so the content-word filter keeps nothing), the code returns the surface
fallback `["FOOD"]` directly — the synonym pass, which would give `["EAT"]`,
is never applied, so the returned sequence is not the fallback gloss with
the table applied once per token. -/
theorem c6_counterexample :
    translate_core [⟨"food", "food", "DET", "det", true, false⟩] = ["FOOD"] ∧
    synonymNormalize ["FOOD"] = ["EAT"] ∧
    synonymNormalize (translate_core [⟨"food", "food", "DET", "det", true, false⟩]) ≠
      translate_core [⟨"food", "food", "DET", "det", true, false⟩] := by
  decide

/-- C6 amended: when the content-word filter keeps at least one token, the
returned sequence is the raw gloss with the synonym table applied once per
token; when it keeps nothing, the returned sequence is the surface fallback
with no synonym pass at all. -/
theorem c6_amended (doc : List SpacyToken) :
    (raw_gloss doc ≠ [] →
      translate_core doc = synonymNormalize (raw_gloss doc)) ∧
    (raw_gloss doc = [] → translate_core doc = surfaceFallback doc) := by
  constructor
  · intro h
    simp only [translate_core]
    rw [if_neg h]
  · intro h
    simp only [translate_core]
    rw [if_pos h]

/-- C6 amended witness: a noun doc goes through the synonym pass, a
determiner doc returns the bare fallback. -/
theorem c6_amended_witness :
    translate_core [⟨"food", "food", "NOUN", "dobj", false, false⟩] =
      synonymNormalize (raw_gloss [⟨"food", "food", "NOUN", "dobj", false, false⟩]) ∧
    translate_core [⟨"the", "the", "DET", "det", true, false⟩] =
      surfaceFallback [⟨"the", "the", "DET", "det", true, false⟩] :=
  ⟨(c6_amended [⟨"food", "food", "NOUN", "dobj", false, false⟩]).1 (by decide),
   (c6_amended [⟨"the", "the", "DET", "det", true, false⟩]).2 (by decide)⟩

/-- Every string in the mapper's output is fixed under uppercasing. -/
theorem translate_core_upper {doc : List SpacyToken} {s : String}
    (h : s ∈ translate_core doc) : strUpper s = s := by
  simp only [translate_core] at h
  by_cases hraw : raw_gloss doc = []
  · rw [if_pos hraw] at h
    unfold surfaceFallback at h
    rw [List.mem_map] at h
    obtain ⟨t, _, rfl⟩ := h
    exact strUpper_strUpper _
  · rw [if_neg hraw] at h
    unfold synonymNormalize at h
    rw [List.mem_map] at h
    obtain ⟨w, hw, rfl⟩ := h
    rcases synonymGet_cases w with hc | hc
    · rw [hc]
      rw [raw_gloss_eq_flatMap, List.mem_flatMap] at hw
      obtain ⟨t, _, hwt⟩ := hw
      rcases mem_tokenGloss hwt with rfl | rfl
      · decide
      · exact strUpper_strUpper _
    · simp only [List.mem_cons, List.not_mem_nil, or_false] at hc
      rcases hc with hc | hc | hc | hc | hc <;> rw [hc] <;> decide

/-- C9: with the annotation pipeline available, every string of the returned
gloss equals its own uppercasing — whether it is a transformed lemma, the
negating marker, a synonym replacement, or surface fallback text. -/
theorem c9_uppercase (nlpFn : String → List SpacyToken) (text s : String)
    (h : s ∈ translate_to_isl_gloss (some nlpFn) text) : strUpper s = s := by
  unfold translate_to_isl_gloss at h
  exact translate_core_upper h

/-- C9 witness: the synonym-replaced token of "food" is uppercase. -/
theorem c9_uppercase_witness : strUpper "EAT" = "EAT" :=
  c9_uppercase (fun _ => [⟨"food", "food", "NOUN", "dobj", false, false⟩])
    "food" "EAT" (by decide)

/-- The concatenated per-token contributions never exceed the doc length. -/
theorem flatMap_tokenGloss_length (doc : List SpacyToken) :
    (doc.flatMap tokenGloss).length ≤ doc.length := by
  induction doc with
  | nil => simp
  | cons t ts ih =>
    rw [List.flatMap_cons, List.length_append, List.length_cons]
    have := tokenGloss_length t
    omega

/-- C10: on either path the mapper returns at most one gloss string per
input token. -/
theorem c10_length_le (doc : List SpacyToken) :
    (translate_core doc).length ≤ doc.length := by
  by_cases h : raw_gloss doc = []
  · simp only [translate_core]
    rw [if_pos h]
    unfold surfaceFallback
    rw [List.length_map]
    exact List.length_filter_le _ _
  · simp only [translate_core]
    rw [if_neg h]
    unfold synonymNormalize
    rw [List.length_map, raw_gloss_eq_flatMap]
    exact flatMap_tokenGloss_length doc

/-- C7 counterexample: on a request whose audio transcribes to empty text,
the handler saves the temporary file, attempts transcription, answers 200 on
the empty-transcription short-circuit — and returns with the temporary file
still present: `os.remove` is only reached on the non-empty success path. -/
theorem c7_counterexample :
    (transcribe_audio (some (fun _ => [])) true
        ⟨true, "rec.webm", .ok ""⟩ ⟨false⟩).2.tempExists = true ∧
    (transcribe_audio (some (fun _ => [])) true
        ⟨true, "rec.webm", .ok ""⟩ ⟨false⟩).1.status = 200 := by
  decide

/-- C7 amended: once the request passes the field and filename checks, the
temporary file is deleted exactly on the path where transcription succeeds
with non-empty stripped text and the Whisper model is loaded; on the
empty-transcription short-circuit, the missing-Whisper path, and the
exception path, the handler returns with the file still present. -/
theorem c7_amended (nlp : Option (String → List SpacyToken))
    (whisper_model : Bool) (req : AudioRequest) (st : TempState)
    (hfield : req.has_audio_data = true) (hname : req.filename ≠ "") :
    (∀ raw, req.transcribe_result = .ok raw → strStrip raw ≠ "" →
      whisper_model = true →
      (transcribe_audio nlp whisper_model req st).2.tempExists = false) ∧
    (∀ raw, req.transcribe_result = .ok raw → strStrip raw = "" →
      whisper_model = true →
      (transcribe_audio nlp whisper_model req st).2.tempExists = true) ∧
    (whisper_model = false →
      (transcribe_audio nlp whisper_model req st).2.tempExists = true) ∧
    (∀ e, req.transcribe_result = .error e → whisper_model = true →
      (transcribe_audio nlp whisper_model req st).2.tempExists = true) := by
  refine ⟨?_, ?_, ?_, ?_⟩
  · intro raw hok hne hw
    simp [transcribe_audio, hfield, hname, hok, hne, hw]
  · intro raw hok hemp hw
    simp [transcribe_audio, hfield, hname, hok, hemp, hw]
  · intro hw
    simp [transcribe_audio, hfield, hname, hw]
  · intro e herr hw
    simp [transcribe_audio, hfield, hname, herr, hw]

/-- C7 amended witness: the four paths at concrete requests. -/
theorem c7_amended_witness :
    (transcribe_audio none true ⟨true, "a.webm", .ok "hi"⟩ ⟨false⟩).2.tempExists = false ∧
    (transcribe_audio none true ⟨true, "a.webm", .ok ""⟩ ⟨false⟩).2.tempExists = true ∧
    (transcribe_audio none false ⟨true, "a.webm", .ok "hi"⟩ ⟨false⟩).2.tempExists = true ∧
    (transcribe_audio none true ⟨true, "a.webm", .error "boom"⟩ ⟨false⟩).2.tempExists = true :=
  ⟨(c7_amended none true ⟨true, "a.webm", .ok "hi"⟩ ⟨false⟩ rfl (by decide)).1
      "hi" rfl (by decide) rfl,
   (c7_amended none true ⟨true, "a.webm", .ok ""⟩ ⟨false⟩ rfl (by decide)).2.1
      "" rfl (by decide) rfl,
   (c7_amended none false ⟨true, "a.webm", .ok "hi"⟩ ⟨false⟩ rfl (by decide)).2.2.1 rfl,
   (c7_amended none true ⟨true, "a.webm", .error "boom"⟩ ⟨false⟩ rfl (by decide)).2.2.2
      "boom" rfl rfl⟩

/-- C8 counterexample: with the spaCy model unavailable, a valid audio
request that transcribes to "hello" is answered with status 200 — not 500 —
and its gloss field carries the literal error string. -/
theorem c8_counterexample :
    (transcribe_audio none true ⟨true, "rec.webm", .ok "hello"⟩ ⟨false⟩).1.status = 200 ∧
    (transcribe_audio none true ⟨true, "rec.webm", .ok "hello"⟩ ⟨false⟩).1.gloss =
      ["Error: spaCy model not loaded."] ∧
    (transcribe_audio none true ⟨true, "rec.webm", .ok "hello"⟩ ⟨false⟩).1.status ≠ 500 := by
  decide

/-- C8 amended: missing multipart field and empty filename yield 400; an
unavailable Whisper model and a transcription exception yield 500; but an
unavailable spaCy model yields a 200 response whose gloss is the single
error string, not a 500 service failure. -/
theorem c8_amended (nlp : Option (String → List SpacyToken))
    (whisper_model : Bool) (req : AudioRequest) (st : TempState) :
    (req.has_audio_data = false →
      (transcribe_audio nlp whisper_model req st).1.status = 400) ∧
    (req.has_audio_data = true → req.filename = "" →
      (transcribe_audio nlp whisper_model req st).1.status = 400) ∧
    (req.has_audio_data = true → req.filename ≠ "" → whisper_model = false →
      (transcribe_audio nlp whisper_model req st).1.status = 500) ∧
    (∀ e, req.has_audio_data = true → req.filename ≠ "" →
      whisper_model = true → req.transcribe_result = .error e →
      (transcribe_audio nlp whisper_model req st).1.status = 500) ∧
    (∀ raw, req.has_audio_data = true → req.filename ≠ "" →
      whisper_model = true → req.transcribe_result = .ok raw →
      strStrip raw ≠ "" → nlp = none →
      (transcribe_audio nlp whisper_model req st).1.status = 200 ∧
      (transcribe_audio nlp whisper_model req st).1.gloss =
        ["Error: spaCy model not loaded."]) := by
  refine ⟨?_, ?_, ?_, ?_, ?_⟩
  · intro hfield
    simp [transcribe_audio, hfield]
  · intro hfield hname
    simp [transcribe_audio, hfield, hname]
  · intro hfield hname hw
    simp [transcribe_audio, hfield, hname, hw]
  · intro e hfield hname hw herr
    simp [transcribe_audio, hfield, hname, hw, herr]
  · intro raw hfield hname hw hok hne hnlp
    constructor <;>
      simp [transcribe_audio, translate_to_isl_gloss, hfield, hname, hw, hok, hne, hnlp]

/-- C8 amended witness: the five paths at concrete requests. -/
theorem c8_amended_witness :
    (transcribe_audio none true ⟨false, "a.webm", .ok "hi"⟩ ⟨false⟩).1.status = 400 ∧
    (transcribe_audio none true ⟨true, "", .ok "hi"⟩ ⟨false⟩).1.status = 400 ∧
    (transcribe_audio none false ⟨true, "a.webm", .ok "hi"⟩ ⟨false⟩).1.status = 500 ∧
    (transcribe_audio none true ⟨true, "a.webm", .error "boom"⟩ ⟨false⟩).1.status = 500 ∧
    (transcribe_audio none true ⟨true, "a.webm", .ok "hi"⟩ ⟨false⟩).1.status = 200 ∧
    (transcribe_audio none true ⟨true, "a.webm", .ok "hi"⟩ ⟨false⟩).1.gloss =
      ["Error: spaCy model not loaded."] :=
  ⟨(c8_amended none true ⟨false, "a.webm", .ok "hi"⟩ ⟨false⟩).1 rfl,
   (c8_amended none true ⟨true, "", .ok "hi"⟩ ⟨false⟩).2.1 rfl rfl,
   (c8_amended none false ⟨true, "a.webm", .ok "hi"⟩ ⟨false⟩).2.2.1 rfl (by decide) rfl,
   (c8_amended none true ⟨true, "a.webm", .error "boom"⟩ ⟨false⟩).2.2.2.1
      "boom" rfl (by decide) rfl rfl,
   (c8_amended none true ⟨true, "a.webm", .ok "hi"⟩ ⟨false⟩).2.2.2.2
      "hi" rfl (by decide) rfl rfl (by decide) rfl⟩
